import Mathlib

/-!
Verification development for `bioptim/dynamics/fatigue/xia_fatigue.py`.

The Python module implements the Xia muscle-fatigue model: a switched ODE on
the state triple `(ma, mr, mf)` (active, rested, fatigued fractions) driven by
a target load, plus a composite variant (`XiaTauFatigue`) holding one Xia model
per signed torque direction ("minus"/"plus").

Embedding conventions:
* numeric values are exact rationals (`ℚ`); the casadi symbolic primitives
  `lt`, `gt`, `if_else` become their pointwise meaning on rationals;
* the engine context `nlp` is modelled as two partial maps from channel names
  to an `OptVariable` (the slot indices of that channel inside the combined
  vectors); `DynamicsFunctions.get` reads the channel's values from a vector;
* fallible Python code (raised exceptions) is modelled with `Except PyError`;
* state/control vectors and the combined derivative vector are `List ℚ`;
  `List.set` never resizes, matching write-in-place semantics.
-/

/-- Variable kinds, from `bioptim.misc.enums.VariableType` (not part of the
fragment; modelled from the spec: states vs. control variables). -/
inductive VariableType
  | STATES
  | CONTROLS
deriving DecidableEq

/-- The Python exceptions the fragment can raise: the explicit
`NotImplementedError` of the two `_get_target_load` guards, `KeyError` for a
missing channel name, `TypeError` for a call with missing required arguments,
and `IndexError` for a positional lookup out of range. -/
inductive PyError
  | notImplemented (msg : String)
  | keyError (key : String)
  | typeError (msg : String)
  | indexError (msg : String)
deriving DecidableEq

/-- Modelled from the spec: a named state/control channel of the engine
context exposes the slot indices of its rows inside the combined vector
(spec section 6: "a positional index selecting which row/actuator within a
channel"). -/
structure OptVariable where
  index : List Nat
deriving DecidableEq

/-- Modelled from the spec: the engine-provided `nlp` context object, exposing
"named state and control channel collections for the current degree of
freedom, keyed by string names". Lookup of an absent name is a `KeyError`;
`in` tests membership. -/
structure Nlp where
  states : String → Option OptVariable
  controls : String → Option OptVariable

/-- Modelled from the spec: `DynamicsFunctions.get(var, vec)` (defined in
`dynamics_functions.py`, outside the fragment) reads the channel's values out
of the engine-supplied combined vector; row `i` of the result is the value at
the channel's `i`-th slot. -/
def DynamicsFunctions.get (var : OptVariable) (vec : List ℚ) : List ℚ :=
  var.index.map (fun i => vec.getD i 0)

/-- casadi `lt` on rationals. -/
def casadi.lt (a b : ℚ) : Bool := decide (a < b)

/-- casadi `gt` on rationals. -/
def casadi.gt (a b : ℚ) : Bool := decide (a > b)

/-- casadi `if_else` on rationals. -/
def casadi.if_else (c : Bool) (x y : ℚ) : ℚ := if c then x else y

/-- The Xia fatigue model parameters (`XiaFatigue.__init__`): development rate
`LD`, relaxation rate `LR`, fiber recovery rate `F`, fiber relaxation rate
`R`, and the scaling factor `scale` (default 1). -/
structure XiaFatigue where
  LD : ℚ
  LR : ℚ
  F : ℚ
  R : ℚ
  scale : ℚ := 1
deriving DecidableEq

/-- `XiaFatigue.suffix(variable_type)`: the ordered state-component labels for
state variables, a single empty label otherwise. -/
def XiaFatigue.suffix (variable_type : VariableType) : List String :=
  if variable_type = VariableType.STATES then ["ma", "mr", "mf"] else [""]

/-- `XiaFatigue.default_initial_guess()`: `(0, 1, 0)`. -/
def XiaFatigue.default_initial_guess (_ : XiaFatigue) : ℚ × ℚ × ℚ := (0, 1, 0)

/-- Bound boxes returned by the `default_bounds` methods: `XiaFatigue` returns
a pair of triples, the control branch of `XiaTauFatigue.default_bounds`
returns a pair of one-element tuples. -/
inductive Bounds
  | triple (lower upper : ℚ × ℚ × ℚ)
  | single (lower upper : ℚ)
deriving DecidableEq

/-- `XiaFatigue.default_bounds(variable_type)`: the source returns
`(0, 0, 0), (1, 1, 1)` unconditionally, for every `variable_type`. -/
def XiaFatigue.default_bounds (_ : XiaFatigue) (_ : VariableType) : Bounds :=
  Bounds.triple (0, 0, 0) (1, 1, 1)

/-- The expression `c` computed inside `XiaFatigue.apply_dynamics`: the
activation transfer rate, switched on `lt(ma, target_load)` and, in the
under-activated regime, on `gt(mr, target_load - ma)`. -/
def XiaFatigue.transfer_rate (m : XiaFatigue) (target_load ma mr : ℚ) : ℚ :=
  casadi.if_else (casadi.lt ma target_load)
    (casadi.if_else (casadi.gt mr (target_load - ma))
      (m.LD * (target_load - ma)) (m.LD * mr))
    (m.LR * (target_load - ma))

/-- `XiaFatigue.apply_dynamics(target_load, ma, mr, mf)`: returns
`vertcat(ma_dot, mr_dot, mf_dot)` with `ma_dot = c - F*ma`,
`mr_dot = -c + R*mf`, `mf_dot = F*ma - R*mf`. -/
def XiaFatigue.apply_dynamics (m : XiaFatigue) (target_load ma mr mf : ℚ) :
    ℚ × ℚ × ℚ :=
  let c := m.transfer_rate target_load ma mr
  (c - m.F * ma, -c + m.R * mf, m.F * ma - m.R * mf)

/-- `XiaFatigue._get_target_load(nlp, controls, index)`: raises
`NotImplementedError` when the "muscles" control channel is absent, otherwise
returns row `index` of the muscle controls. Note: the source performs no
division by `scale` here. -/
def XiaFatigue._get_target_load (_ : XiaFatigue) (nlp : Nlp)
    (controls : List ℚ) (index : Nat) : Except PyError ℚ :=
  match nlp.controls "muscles" with
  | none => Except.error (PyError.notImplemented
      "Fatigue dynamics without muscle controls is not implemented yet")
  | some var => Except.ok ((DynamicsFunctions.get var controls).getD index 0)

/-- The list comprehension
`[DynamicsFunctions.get(nlp.states[base + s], vec)[index, :] for s in sfxs]`
shared by both dynamics entry points: looks the state channels up left to
right, raising `KeyError` at the first absent name. -/
def gatherFatigue (nlp : Nlp) (base : String) (vec : List ℚ) (index : Nat) :
    List String → Except PyError (List ℚ)
  | [] => Except.ok []
  | s :: rest =>
    match nlp.states (base ++ s) with
    | none => Except.error (PyError.keyError (base ++ s))
    | some var =>
      match gatherFatigue nlp base vec index rest with
      | Except.error e => Except.error e
      | Except.ok vs =>
          Except.ok ((DynamicsFunctions.get var vec).getD index 0 :: vs)

/-- The write loop
`for i, s in enumerate(sfxs): dxdt[nlp.states[base + s].index[index], :] = vals[i]`
shared by both dynamics entry points: writes value `i` to the slot of state
channel `base ++ s`, raising `KeyError` at an absent name. `List.set` leaves
the vector unchanged in length and ignores out-of-range slots. -/
def writeLoop (nlp : Nlp) (base : String) (index : Nat) (vals : List ℚ) :
    List String → Nat → List ℚ → Except PyError (List ℚ)
  | [], _, dxdt => Except.ok dxdt
  | s :: rest, i, dxdt =>
    match nlp.states (base ++ s) with
    | none => Except.error (PyError.keyError (base ++ s))
    | some var =>
        writeLoop nlp base index vals rest (i + 1)
          (dxdt.set (var.index.getD index 0) (vals.getD i 0))

/-- The call `self.suffix()` in the write loop of `XiaFatigue.dynamics`:
`XiaFatigue.suffix` requires the positional argument `variable_type` and has
no default for it, so in Python this zero-argument call raises `TypeError`
before the loop body runs. -/
def XiaFatigue.suffix_zero_arg : Except PyError (List String) :=
  Except.error (PyError.typeError
    "suffix missing 1 required positional argument variable_type")

/-- `XiaFatigue.dynamics(dxdt, nlp, index, states, controls)`: fetches the
target load, gathers `(ma, mr, mf)` from the `muscles_*` state channels,
applies the fatigue law, then runs the write loop over `self.suffix()` —
which raises `TypeError` (see `XiaFatigue.suffix_zero_arg`). -/
def XiaFatigue.dynamics (m : XiaFatigue) (dxdt : List ℚ) (nlp : Nlp)
    (index : Nat) (states controls : List ℚ) : Except PyError (List ℚ) :=
  match m._get_target_load nlp controls index with
  | Except.error e => Except.error e
  | Except.ok target_load =>
    match gatherFatigue nlp "muscles_" states index
        (XiaFatigue.suffix VariableType.STATES) with
    | Except.error e => Except.error e
    | Except.ok fatigue =>
      let current_dxdt := m.apply_dynamics target_load
        (fatigue.getD 0 0) (fatigue.getD 1 0) (fatigue.getD 2 0)
      match XiaFatigue.suffix_zero_arg with
      | Except.error e => Except.error e
      | Except.ok sfxs =>
          writeLoop nlp "muscles_" index
            [current_dxdt.1, current_dxdt.2.1, current_dxdt.2.2] sfxs 0 dxdt

/-- The composite `XiaTauFatigue(minus, plus, state_only=True)`: one Xia model
per signed torque direction. -/
structure XiaTauFatigue where
  minus : XiaFatigue
  plus : XiaFatigue
  state_only : Bool := true

/-- `XiaTauFatigue.suffix()`: the ordered sub-model keys `("minus", "plus")`. -/
def XiaTauFatigue.suffix (_ : XiaTauFatigue) : List String := ["minus", "plus"]

/-- Modelled from the spec: the `MultiFatigueModel` constructor (in
`fatigue_dynamics.py`, outside the fragment) "owns a named collection of
Fatigue State Models"; the ordered models `[minus, plus]` are stored under the
keys given by `suffix()`. -/
def XiaTauFatigue.models (t : XiaTauFatigue) (key : String) :
    Option XiaFatigue :=
  if key = "minus" then some t.minus
  else if key = "plus" then some t.plus
  else none

/-- Modelled from the spec: `MultiFatigueModel._convert_to_models_key` (in
`fatigue_dynamics.py`, outside the fragment) resolves a position to a key;
keys are "fixed at construction and ordered (index 0, index 1, …) for
positional lookup", and "requesting an index outside the configured key range
is a programming error (IndexOutOfRange)". -/
def XiaTauFatigue._convert_to_models_key (t : XiaTauFatigue) (index : Nat) :
    Except PyError String :=
  match (t.suffix)[index]? with
  | none => Except.error (PyError.indexError "tuple index out of range")
  | some key => Except.ok key

/-- `XiaTauFatigue._get_target_load(var, suffix, nlp, controls, index)`:
raises `NotImplementedError` when the "tau" control channel is absent,
otherwise returns row `index` of the `tau_<suffix>` controls divided by
`var.scale`. -/
def XiaTauFatigue._get_target_load (var : XiaFatigue) (sfx : String)
    (nlp : Nlp) (controls : List ℚ) (index : Nat) : Except PyError ℚ :=
  match nlp.controls "tau" with
  | none => Except.error (PyError.notImplemented
      "Fatigue dynamics without tau controls is not implemented yet")
  | some _ =>
    match nlp.controls ("tau_" ++ sfx) with
    | none => Except.error (PyError.keyError ("tau_" ++ sfx))
    | some var2 =>
        Except.ok ((DynamicsFunctions.get var2 controls).getD index 0
          / var.scale)

/-- `XiaTauFatigue._dynamics_per_suffix(dxdt, suffix, nlp, index, states,
controls)`: resolves the sub-model, fetches its target load, gathers its
state triple from the `tau_<suffix>_*` channels, applies the fatigue law and
writes the three derivatives back at the corresponding slots (the write loop
here iterates over `var.suffix(variable_type=VariableType.STATES)`). -/
def XiaTauFatigue._dynamics_per_suffix (t : XiaTauFatigue) (dxdt : List ℚ)
    (sfx : String) (nlp : Nlp) (index : Nat) (states controls : List ℚ) :
    Except PyError (List ℚ) :=
  match t.models sfx with
  | none => Except.error (PyError.keyError sfx)
  | some var =>
    match XiaTauFatigue._get_target_load var sfx nlp controls index with
    | Except.error e => Except.error e
    | Except.ok target_load =>
      match gatherFatigue nlp ("tau_" ++ sfx ++ "_") states index
          (XiaFatigue.suffix VariableType.STATES) with
      | Except.error e => Except.error e
      | Except.ok fatigue =>
        let current_dxdt := var.apply_dynamics target_load
          (fatigue.getD 0 0) (fatigue.getD 1 0) (fatigue.getD 2 0)
        writeLoop nlp ("tau_" ++ sfx ++ "_") index
          [current_dxdt.1, current_dxdt.2.1, current_dxdt.2.2]
          (XiaFatigue.suffix VariableType.STATES) 0 dxdt

/-- `XiaTauFatigue.default_bounds(index, variable_type)`: resolves the
sub-model at `index`; for state variables delegates to that sub-model, for
any other variable type returns the one-element boxes
`((scale if index == 0 else 0),), ((scale if index == 1 else 0),)` — note the
source never consults `state_only` here. -/
def XiaTauFatigue.default_bounds (t : XiaTauFatigue) (index : Nat)
    (variable_type : VariableType) : Except PyError Bounds :=
  match t._convert_to_models_key index with
  | Except.error e => Except.error e
  | Except.ok key =>
    match t.models key with
    | none => Except.error (PyError.keyError key)
    | some m =>
      if variable_type = VariableType.STATES then
        Except.ok (m.default_bounds variable_type)
      else
        Except.ok (Bounds.single (if index = 0 then m.scale else 0)
          (if index = 1 then m.scale else 0))

/-- `XiaTauFatigue.default_initial_guess(index, variable_type)`: resolves the
sub-model at `index` and returns its `default_initial_guess()`; the
`variable_type` argument is never read. -/
def XiaTauFatigue.default_initial_guess (t : XiaTauFatigue) (index : Nat)
    (_ : VariableType) : Except PyError (ℚ × ℚ × ℚ) :=
  match t._convert_to_models_key index with
  | Except.error e => Except.error e
  | Except.ok key =>
    match t.models key with
    | none => Except.error (PyError.keyError key)
    | some m => Except.ok m.default_initial_guess

/-- The spec's concrete-scenario parameters: `LD=1, LR=1, F=1, R=1, scale=1`. -/
def mUnit : XiaFatigue := { LD := 1, LR := 1, F := 1, R := 1 }

/-- C1: for every parameter tuple and every input, the three derivatives
returned by `XiaFatigue.apply_dynamics` sum exactly to zero, identically in
both regimes, in exact rational arithmetic. -/
theorem apply_dynamics_conservation (m : XiaFatigue)
    (target_load ma mr mf : ℚ) :
    (m.apply_dynamics target_load ma mr mf).1
      + (m.apply_dynamics target_load ma mr mf).2.1
      + (m.apply_dynamics target_load ma mr mf).2.2 = 0 := by
  simp only [XiaFatigue.apply_dynamics]
  ring

/-- C2: whenever `ma >= target_load` (equality included) the relaxation regime
is used: `c = LR * (target_load - ma)` regardless of `mr` and `mf`, and the
derivatives are `(c - F*ma, -c + R*mf, F*ma - R*mf)`. -/
theorem apply_dynamics_relaxation_regime (m : XiaFatigue)
    (target_load ma mr mf : ℚ) (h : target_load ≤ ma) :
    m.transfer_rate target_load ma mr = m.LR * (target_load - ma)
      ∧ m.apply_dynamics target_load ma mr mf
        = (m.LR * (target_load - ma) - m.F * ma,
           -(m.LR * (target_load - ma)) + m.R * mf,
           m.F * ma - m.R * mf) := by
  have hc : m.transfer_rate target_load ma mr = m.LR * (target_load - ma) := by
    simp [XiaFatigue.transfer_rate, casadi.if_else, casadi.lt, not_lt.mpr h]
  exact ⟨hc, by simp [XiaFatigue.apply_dynamics, hc]⟩

/-- Witness for C2, the spec's concrete scenario: `TL = 3/10 <= ma = 1/2`. -/
theorem apply_dynamics_relaxation_regime_witness :
    ((3 : ℚ)/10 ≤ 1/2)
      ∧ (mUnit.transfer_rate (3/10) (1/2) (1/2) = mUnit.LR * (3/10 - 1/2)
        ∧ mUnit.apply_dynamics (3/10) (1/2) (1/2) 0
          = (mUnit.LR * (3/10 - 1/2) - mUnit.F * (1/2),
             -(mUnit.LR * (3/10 - 1/2)) + mUnit.R * 0,
             mUnit.F * (1/2) - mUnit.R * 0)) :=
  ⟨by norm_num,
   apply_dynamics_relaxation_regime mUnit (3/10) (1/2) (1/2) 0 (by norm_num)⟩

/-- C3: whenever `ma < target_load` the transfer rate is
`LD * (target_load - ma)` when `mr > target_load - ma` and `LD * mr`
otherwise, and the two formulas agree exactly at the boundary
`mr = target_load - ma`. -/
theorem transfer_rate_development_regime (m : XiaFatigue)
    (target_load ma mr : ℚ) (h : ma < target_load) :
    m.transfer_rate target_load ma mr
      = (if target_load - ma < mr then m.LD * (target_load - ma)
         else m.LD * mr)
      ∧ (mr = target_load - ma →
          m.transfer_rate target_load ma mr = m.LD * mr
            ∧ m.transfer_rate target_load ma mr
              = m.LD * (target_load - ma)) := by
  have hc : m.transfer_rate target_load ma mr
      = (if target_load - ma < mr then m.LD * (target_load - ma)
         else m.LD * mr) := by
    by_cases hb : target_load - ma < mr <;>
      simp [XiaFatigue.transfer_rate, casadi.if_else, casadi.lt, casadi.gt,
        h, hb, gt_iff_lt]
  refine ⟨hc, fun hbd => ?_⟩
  subst hbd
  rw [hc]
  simp

/-- Witness for C3, the spec's concrete scenario 2 (`ma = 1/10 < TL = 1/2`,
`mr = 9/10`). -/
theorem transfer_rate_development_regime_witness :
    ((1 : ℚ)/10 < 1/2)
      ∧ (mUnit.transfer_rate (1/2) (1/10) (9/10)
          = (if (1 : ℚ)/2 - 1/10 < 9/10 then mUnit.LD * (1/2 - 1/10)
             else mUnit.LD * (9/10))
        ∧ ((9 : ℚ)/10 = 1/2 - 1/10 →
            mUnit.transfer_rate (1/2) (1/10) (9/10) = mUnit.LD * (9/10)
              ∧ mUnit.transfer_rate (1/2) (1/10) (9/10)
                = mUnit.LD * (1/2 - 1/10))) :=
  ⟨by norm_num,
   transfer_rate_development_regime mUnit (1/2) (1/10) (9/10) (by norm_num)⟩

/-- A Xia model with a non-trivial scale factor. -/
def mScale2 : XiaFatigue := { LD := 1, LR := 1, F := 1, R := 1, scale := 2 }

/-- A composite with `state_only = true` and the usual sign convention:
negative scale on the minus direction, positive on the plus direction. -/
def tauStateOnly : XiaTauFatigue :=
  { minus := { LD := 10, LR := 10, F := 1/100, R := 1/500, scale := -5 },
    plus := { LD := 10, LR := 10, F := 1/100, R := 1/500, scale := 5 },
    state_only := true }

/-- An engine context carrying both a muscle channel and both tau channels,
with all fatigue state channels configured. -/
def nlpBoth : Nlp where
  states := fun key =>
    if key = "muscles_ma" then some ⟨[0]⟩
    else if key = "muscles_mr" then some ⟨[1]⟩
    else if key = "muscles_mf" then some ⟨[2]⟩
    else if key = "tau_minus_ma" then some ⟨[3]⟩
    else if key = "tau_minus_mr" then some ⟨[4]⟩
    else if key = "tau_minus_mf" then some ⟨[5]⟩
    else if key = "tau_plus_ma" then some ⟨[6]⟩
    else if key = "tau_plus_mr" then some ⟨[7]⟩
    else if key = "tau_plus_mf" then some ⟨[8]⟩
    else none
  controls := fun key =>
    if key = "muscles" then some ⟨[0]⟩
    else if key = "tau" then some ⟨[0]⟩
    else if key = "tau_minus" then some ⟨[0]⟩
    else if key = "tau_plus" then some ⟨[1]⟩
    else none

/-- Counterexample for C4: with `scale = 2` and raw muscle control value `2`,
`XiaFatigue._get_target_load` returns the raw value `2`, not
`raw / scale = 1` — the single-muscle lookup path never divides by `scale`. -/
theorem muscle_target_load_not_scaled_cex :
    XiaFatigue._get_target_load mScale2 nlpBoth [2] 0 = Except.ok 2
      ∧ mScale2.scale = 2
      ∧ ¬ ((2 : ℚ) = 2 / mScale2.scale) := by
  refine ⟨rfl, rfl, ?_⟩
  norm_num [mScale2]

/-- C4 amended: only the composite per-direction path divides by `scale`
(`XiaTauFatigue._get_target_load` returns `raw / scale`, hence `1` when the
raw value equals a non-zero `scale`), while `XiaFatigue._get_target_load`
returns the raw muscle control value unscaled. -/
theorem target_load_scale_amended (m var : XiaFatigue) (sfx : String)
    (nlp : Nlp) (controls : List ℚ) (index : Nat) (u w v : OptVariable)
    (hm : nlp.controls "muscles" = some u)
    (ht : nlp.controls "tau" = some w)
    (hv : nlp.controls ("tau_" ++ sfx) = some v)
    (hscale : var.scale ≠ 0)
    (hraw : (DynamicsFunctions.get v controls).getD index 0 = var.scale) :
    XiaFatigue._get_target_load m nlp controls index
        = Except.ok ((DynamicsFunctions.get u controls).getD index 0)
      ∧ XiaTauFatigue._get_target_load var sfx nlp controls index
        = Except.ok 1 := by
  constructor
  · simp [XiaFatigue._get_target_load, hm]
  · simp only [XiaTauFatigue._get_target_load, ht, hv, hraw,
      div_self hscale]

/-- Witness for C4's amended statement: the minus sub-model of
`tauStateOnly` has `scale = -5`; the raw control vector `[-5, 5]` puts the
raw value `-5` in the minus channel's slot, so the composite path yields
target load `1`, while the muscle path returns the raw value `-5`. -/
theorem target_load_scale_amended_witness :
    nlpBoth.controls "muscles" = some ⟨[0]⟩
      ∧ nlpBoth.controls "tau" = some ⟨[0]⟩
      ∧ nlpBoth.controls ("tau_" ++ "minus") = some ⟨[0]⟩
      ∧ tauStateOnly.minus.scale ≠ 0
      ∧ (DynamicsFunctions.get ⟨[0]⟩ [-5, 5]).getD 0 0
          = tauStateOnly.minus.scale
      ∧ (XiaFatigue._get_target_load mUnit nlpBoth [-5, 5] 0
          = Except.ok ((DynamicsFunctions.get ⟨[0]⟩ [-5, 5]).getD 0 0)
        ∧ XiaTauFatigue._get_target_load tauStateOnly.minus "minus" nlpBoth
            [-5, 5] 0 = Except.ok 1) :=
  ⟨rfl, rfl, rfl, by norm_num [tauStateOnly], by norm_num [tauStateOnly,
      DynamicsFunctions.get],
   target_load_scale_amended mUnit tauStateOnly.minus "minus" nlpBoth
     [-5, 5] 0 ⟨[0]⟩ ⟨[0]⟩ ⟨[0]⟩ rfl rfl rfl
     (by norm_num [tauStateOnly])
     (by norm_num [tauStateOnly, DynamicsFunctions.get])⟩

/-- Counterexample for C7: `tauStateOnly` has `state_only = true`, yet its
control-variable `default_bounds` at index 0 still produces the asymmetric
split `((scale,), (0,))` — the source never consults `state_only`, so the
split is not restricted to non-`state_only` composites. -/
theorem tau_bounds_despite_state_only_cex :
    tauStateOnly.state_only = true
      ∧ tauStateOnly.default_bounds 0 VariableType.CONTROLS
        = Except.ok (Bounds.single (-5) 0) := by
  exact ⟨rfl, rfl⟩

/-- C7 amended: for every index `k` in the configured range, state bounds
delegate to the sub-model at `k`; control bounds always produce the
asymmetric split — lower bound `scale` of the sub-model at `k` when `k = 0`
(else `0`) and upper bound that `scale` when `k = 1` (else `0`) — regardless
of the composite's `state_only` flag. -/
theorem tau_default_bounds_split (t : XiaTauFatigue) (k : Nat)
    (hk : k = 0 ∨ k = 1) :
    t.default_bounds k VariableType.STATES
        = Except.ok ((if k = 0 then t.minus else t.plus).default_bounds
            VariableType.STATES)
      ∧ t.default_bounds k VariableType.CONTROLS
        = Except.ok (Bounds.single
            (if k = 0 then (if k = 0 then t.minus else t.plus).scale else 0)
            (if k = 1 then (if k = 0 then t.minus else t.plus).scale
             else 0)) := by
  rcases hk with hk | hk <;> subst hk <;> exact ⟨rfl, rfl⟩

/-- Witness for C7's amended statement at `k = 0` on `tauStateOnly`. -/
theorem tau_default_bounds_split_witness :
    ((0 : Nat) = 0 ∨ (0 : Nat) = 1)
      ∧ (tauStateOnly.default_bounds 0 VariableType.STATES
          = Except.ok ((if (0 : Nat) = 0 then tauStateOnly.minus
              else tauStateOnly.plus).default_bounds VariableType.STATES)
        ∧ tauStateOnly.default_bounds 0 VariableType.CONTROLS
          = Except.ok (Bounds.single
              (if (0 : Nat) = 0 then (if (0 : Nat) = 0 then tauStateOnly.minus
                 else tauStateOnly.plus).scale else 0)
              (if (0 : Nat) = 1 then (if (0 : Nat) = 0 then tauStateOnly.minus
                 else tauStateOnly.plus).scale else 0))) :=
  ⟨Or.inl rfl, tau_default_bounds_split tauStateOnly 0 (Or.inl rfl)⟩

/-- Counterexample for C8: asked for control variables,
`XiaFatigue.default_bounds` returns the very same constrained `[0,1]` box it
returns for state variables, not an unconstrained/degenerate result. -/
theorem default_bounds_controls_not_degenerate_cex :
    mUnit.default_bounds VariableType.CONTROLS
        = Bounds.triple (0, 0, 0) (1, 1, 1)
      ∧ mUnit.default_bounds VariableType.CONTROLS
        = mUnit.default_bounds VariableType.STATES :=
  ⟨rfl, rfl⟩

/-- C8 amended: `XiaFatigue.default_bounds` ignores its `variable_type`
argument and returns lower `(0, 0, 0)`, upper `(1, 1, 1)` for every variable
type. -/
theorem default_bounds_ignores_variable_type (m : XiaFatigue)
    (variable_type : VariableType) :
    m.default_bounds variable_type = Bounds.triple (0, 0, 0) (1, 1, 1) := rfl

/-- C9: `XiaFatigue.default_initial_guess` always returns `(0, 1, 0)` — a
fully rested state whose components sum to 1 — and for every configured index
`k`, `XiaTauFatigue.default_initial_guess` returns exactly the sub-model at
`k`'s own `default_initial_guess`. -/
theorem default_initial_guess_delegation (m : XiaFatigue)
    (t : XiaTauFatigue) (k : Nat) (hk : k = 0 ∨ k = 1)
    (variable_type : VariableType) :
    m.default_initial_guess = ((0 : ℚ), (1 : ℚ), (0 : ℚ))
      ∧ m.default_initial_guess.1 + m.default_initial_guess.2.1
          + m.default_initial_guess.2.2 = 1
      ∧ t.default_initial_guess k variable_type
        = Except.ok ((if k = 0 then t.minus
            else t.plus).default_initial_guess) := by
  refine ⟨rfl, by norm_num [XiaFatigue.default_initial_guess], ?_⟩
  rcases hk with hk | hk <;> subst hk <;>
    cases variable_type <;> rfl

/-- Witness for C9 at `k = 0` on `mUnit` and `tauStateOnly`. -/
theorem default_initial_guess_delegation_witness :
    ((0 : Nat) = 0 ∨ (0 : Nat) = 1)
      ∧ (mUnit.default_initial_guess = ((0 : ℚ), (1 : ℚ), (0 : ℚ))
        ∧ mUnit.default_initial_guess.1 + mUnit.default_initial_guess.2.1
            + mUnit.default_initial_guess.2.2 = 1
        ∧ tauStateOnly.default_initial_guess 0 VariableType.STATES
          = Except.ok ((if (0 : Nat) = 0 then tauStateOnly.minus
              else tauStateOnly.plus).default_initial_guess)) :=
  ⟨Or.inl rfl, default_initial_guess_delegation mUnit tauStateOnly 0
    (Or.inl rfl) VariableType.STATES⟩

/-- C10: `XiaTauFatigue.default_initial_guess` ignores its `variable_type`
argument entirely: for every configured index it returns the same
three-component state guess `(0, 1, 0)` for states and controls alike. -/
theorem tau_initial_guess_ignores_variable_type (t : XiaTauFatigue)
    (k : Nat) (hk : k = 0 ∨ k = 1) (vt vt' : VariableType) :
    t.default_initial_guess k vt = t.default_initial_guess k vt'
      ∧ t.default_initial_guess k vt = Except.ok ((0 : ℚ), 1, 0) := by
  rcases hk with hk | hk <;> subst hk <;> cases vt <;> cases vt' <;>
    exact ⟨rfl, rfl⟩

/-- Witness for C10 at `k = 1`, states vs. controls, on `tauStateOnly`. -/
theorem tau_initial_guess_ignores_variable_type_witness :
    ((1 : Nat) = 0 ∨ (1 : Nat) = 1)
      ∧ (tauStateOnly.default_initial_guess 1 VariableType.STATES
          = tauStateOnly.default_initial_guess 1 VariableType.CONTROLS
        ∧ tauStateOnly.default_initial_guess 1 VariableType.STATES
          = Except.ok ((0 : ℚ), 1, 0)) :=
  ⟨Or.inr rfl, tau_initial_guess_ignores_variable_type tauStateOnly 1
    (Or.inr rfl) VariableType.STATES VariableType.CONTROLS⟩

/-- Every error produced by the state-gathering comprehension is a
`KeyError`. -/
theorem gatherFatigue_error_is_keyError (nlp : Nlp) (base : String)
    (vec : List ℚ) (index : Nat) :
    ∀ (l : List String) (e : PyError),
      gatherFatigue nlp base vec index l = Except.error e →
      ∃ k, e = PyError.keyError k := by
  intro l
  induction l with
  | nil => intro e h; simp [gatherFatigue] at h
  | cons s rest ih =>
    intro e h
    simp only [gatherFatigue] at h
    cases hs : nlp.states (base ++ s) with
    | none =>
      rw [hs] at h
      exact ⟨base ++ s, (Except.error.injEq _ _).mp h.symm⟩
    | some var =>
      rw [hs] at h
      cases hg : gatherFatigue nlp base vec index rest with
      | error e2 =>
        rw [hg] at h
        obtain ⟨k, hk⟩ := ih e2 hg
        exact ⟨k, by simpa [hk] using h.symm⟩
      | ok vs => rw [hg] at h; simp at h

/-- Every error produced by the write loop is a `KeyError`. -/
theorem writeLoop_error_is_keyError (nlp : Nlp) (base : String)
    (index : Nat) (vals : List ℚ) :
    ∀ (l : List String) (i : Nat) (dxdt : List ℚ) (e : PyError),
      writeLoop nlp base index vals l i dxdt = Except.error e →
      ∃ k, e = PyError.keyError k := by
  intro l
  induction l with
  | nil => intro i dxdt e h; simp [writeLoop] at h
  | cons s rest ih =>
    intro i dxdt e h
    simp only [writeLoop] at h
    cases hs : nlp.states (base ++ s) with
    | none =>
      rw [hs] at h
      exact ⟨base ++ s, (Except.error.injEq _ _).mp h.symm⟩
    | some var =>
      rw [hs] at h
      exact ih _ _ e h

/-- C5 (failing run): on a fully configured context — muscle control channel
present, all three `muscles_*` state channels present, valid index — the
source's `XiaFatigue.dynamics` does not write the derivatives: its write loop
calls `self.suffix()` with no argument although `suffix` requires
`variable_type`, so the call raises `TypeError` and the combined derivative
vector is left untouched. -/
theorem dynamics_suffix_call_type_error :
    XiaFatigue.dynamics mUnit [0, 0, 0] nlpBoth 0 [1/2, 1/2, 0] [3/10]
      = Except.error (PyError.typeError
          "suffix missing 1 required positional argument variable_type") := by
  rfl

/-- C6: the dynamics entry points raise the unsupported-control-kind error
(`NotImplementedError`) exactly when the required control channel is absent:
`XiaFatigue.dynamics` iff "muscles" is missing, and for every configured key,
`XiaTauFatigue._dynamics_per_suffix` iff "tau" is missing; the guard runs
before any slot of the derivative vector is written. -/
theorem unsupported_control_absence_iff (m : XiaFatigue) (t : XiaTauFatigue)
    (dxdt : List ℚ) (nlp : Nlp) (index : Nat) (states controls : List ℚ)
    (sfx : String) (hs : sfx = "minus" ∨ sfx = "plus") :
    ((∃ msg, XiaFatigue.dynamics m dxdt nlp index states controls
        = Except.error (PyError.notImplemented msg))
      ↔ nlp.controls "muscles" = none)
    ∧ ((∃ msg, XiaTauFatigue._dynamics_per_suffix t dxdt sfx nlp index
          states controls
        = Except.error (PyError.notImplemented msg))
      ↔ nlp.controls "tau" = none) := by
  obtain ⟨var, hvar⟩ : ∃ var, t.models sfx = some var := by
    rcases hs with h | h <;> subst h
    · exact ⟨t.minus, rfl⟩
    · exact ⟨t.plus, rfl⟩
  constructor
  · constructor
    · rintro ⟨msg, hmsg⟩
      by_contra hc
      rcases Option.ne_none_iff_exists'.mp hc with ⟨u, hu⟩
      simp only [XiaFatigue.dynamics, XiaFatigue._get_target_load, hu]
        at hmsg
      cases hg : gatherFatigue nlp "muscles_" states index
          (XiaFatigue.suffix VariableType.STATES) with
      | error e =>
        rw [hg] at hmsg
        obtain ⟨k, hk⟩ := gatherFatigue_error_is_keyError nlp "muscles_"
          states index _ e hg
        simp [hk] at hmsg
      | ok fatigue =>
        rw [hg] at hmsg
        simp [XiaFatigue.suffix_zero_arg] at hmsg
    · intro hnone
      exact ⟨"Fatigue dynamics without muscle controls is not implemented yet",
        by simp [XiaFatigue.dynamics, XiaFatigue._get_target_load, hnone]⟩
  · constructor
    · rintro ⟨msg, hmsg⟩
      by_contra hc
      rcases Option.ne_none_iff_exists'.mp hc with ⟨w, hw⟩
      cases hv : nlp.controls ("tau_" ++ sfx) with
      | none =>
        simp [XiaTauFatigue._dynamics_per_suffix, hvar,
          XiaTauFatigue._get_target_load, hw, hv] at hmsg
      | some v2 =>
        cases hg : gatherFatigue nlp ("tau_" ++ sfx ++ "_") states index
            (XiaFatigue.suffix VariableType.STATES) with
        | error e =>
          obtain ⟨k, hk⟩ := gatherFatigue_error_is_keyError nlp
            ("tau_" ++ sfx ++ "_") states index _ e hg
          simp [XiaTauFatigue._dynamics_per_suffix, hvar,
            XiaTauFatigue._get_target_load, hw, hv, hg, hk] at hmsg
        | ok fatigue =>
          simp only [XiaTauFatigue._dynamics_per_suffix, hvar,
            XiaTauFatigue._get_target_load, hw, hv, hg] at hmsg
          obtain ⟨k, hk⟩ := writeLoop_error_is_keyError nlp
            ("tau_" ++ sfx ++ "_") index _ _ _ _ _ hmsg
          exact PyError.noConfusion hk
    · intro hnone
      exact ⟨"Fatigue dynamics without tau controls is not implemented yet",
        by simp [XiaTauFatigue._dynamics_per_suffix, hvar,
          XiaTauFatigue._get_target_load, hnone]⟩

/-- Witness for C6 on the fully configured context `nlpBoth` (both channels
present, so neither side of either equivalence holds) with the configured key
"minus". -/
theorem unsupported_control_absence_iff_witness :
    (("minus" = "minus" ∨ "minus" = "plus"))
      ∧ (((∃ msg, XiaFatigue.dynamics mUnit [0, 0, 0] nlpBoth 0 [1/2, 1/2, 0]
            [3/10] = Except.error (PyError.notImplemented msg))
          ↔ nlpBoth.controls "muscles" = none)
        ∧ ((∃ msg, XiaTauFatigue._dynamics_per_suffix tauStateOnly [0, 0, 0]
              "minus" nlpBoth 0 [1/2, 1/2, 0] [3/10]
            = Except.error (PyError.notImplemented msg))
          ↔ nlpBoth.controls "tau" = none)) :=
  ⟨Or.inl rfl, unsupported_control_absence_iff mUnit tauStateOnly [0, 0, 0]
    nlpBoth 0 [1/2, 1/2, 0] [3/10] "minus" (Or.inl rfl)⟩
